import Mathlib

/-!
# libvirt-domain.c: adding the disks of a libvirt domain to a handle

A shallow embedding of `src/libvirt-domain.c` (functions `add_disk`,
`connect_live`, `for_each_disk` and `guestfs___add_libvirt_dom`) and the
properties of the disk enumeration, the read-only policy and the
checkpoint/rollback discipline.

Conventions of the embedding.

* C `int` flags stay integers: zero is false, anything else is true.
* An optional argument (a bit of `bitmask` plus a field) is an `Option`.
* The result of an XPath evaluation relative to a node is the list of string
  values of the selected nodes in document order; a NULL object, a NULL node
  set and `nodeNr == 0` are all the empty list (the code treats the three
  alike), and `nodeTab[0]` is the head of the list.
* The two document-level evaluations are not guarded in that way: the code
  tests the object only and then reads `nodes->nodeNr`.  libxml2 gives the
  disk query a node set for every document; it gives the channel query an
  object without a node set when the description has no `devices` element,
  and there `connect_live` reads through a NULL pointer and does not return.
* A result of `none` for `connect_live` or `guestfs___add_libvirt_dom` means
  that the call does not return; the handle is then the one at that point.
* `nodeNr` is a C `int`, so the loop counter `nr_added` never leaves the range
  of `ssize_t` or `int`; counts are therefore not reduced modulo a word size.
* The handle carries a `trace`: the calls made by this file into libvirt, the
  document-level XPath evaluations, the calls into the rest of the library and
  the calls of `error`, in program order.
-/

namespace LibvirtDomain

/-! ## Data model -/

/-- The optional arguments of `guestfs_add_drive_opts` used by this file. -/
structure guestfs_add_drive_opts_argv where
  readonly : Option Int
  format : Option String
  iface : Option String
deriving DecidableEq, Repr

/-- The C enumeration `enum readonlydisk`. -/
inductive readonlydisk where
  | readonlydisk_error
  | readonlydisk_read
  | readonlydisk_write
  | readonlydisk_ignore
deriving DecidableEq, Repr

/-- The C structure `struct add_disk_data`. -/
structure add_disk_data where
  readonly : Int
  readonlydisk : readonlydisk
  optargs : guestfs_add_drive_opts_argv
deriving DecidableEq, Repr

/-- The optional arguments `struct guestfs___add_libvirt_dom_argv`. -/
structure guestfs___add_libvirt_dom_argv where
  readonly : Option Int
  iface : Option String
  live : Option Int
  readonlydisk : Option String
deriving DecidableEq, Repr

/-- The messages this file passes to `error`. -/
inductive ErrorMsg where
  | unknown_readonlydisk
  | live_and_readonly
  | domain_info
  | domain_is_live
  | disk_marked_readonly (filename : String)
  | reading_xml
  | parse_xml
  | xpath_context
  | xpath_eval
  | no_channel
  | no_disks
deriving DecidableEq, Repr

/-- One entry of the trace of a handle. -/
inductive Event where
  | error (e : ErrorMsg)
  | virDomainGetInfo
  | virDomainGetXMLDesc
  | xmlXPathEvalExpression (expr : String)
  | checkpoint_drives
  | rollback_drives (ckp : Nat)
  | add_drive_opts (filename : String) (optargs : guestfs_add_drive_opts_argv)
  | set_attach_method (method : String)
deriving DecidableEq, Repr

/-- One entry of the registration list of a handle. -/
structure drive where
  path : String
  optargs : guestfs_add_drive_opts_argv
deriving DecidableEq, Repr

/-- The part of `guestfs_h` this file reads and writes. -/
structure guestfs_h where
  drives : List drive
  attach_method : String
  trace : List Event
deriving DecidableEq, Repr

/-- The choices of the library functions called by this file: which calls of
`guestfs__add_drive_opts` and of `guestfs_set_attach_method` are accepted.
The choice may depend on the whole handle, hence on the number of calls made
so far. -/
structure Backend where
  add_drive_ok : guestfs_h → String → guestfs_add_drive_opts_argv → Bool
  set_attach_method_ok : guestfs_h → String → Bool

/-- The view of one `<disk>` node given by the XPath queries of `for_each_disk`:
`./@type`, `./source/@file`, `./source/@dev`, `./driver/@type` (string values
of the selected attributes) and the number of nodes selected by `./readonly`.
The string value of an attribute is what `xmlNodeListGetString` yields for it;
an attribute written with an empty value has the empty string as its value. -/
structure DiskNode where
  xptype : List String
  xpfilename_file : List String
  xpfilename_dev : List String
  xpformat : List String
  xpreadonly : Nat
deriving DecidableEq, Repr

/-- The view of one `<channel>` node under `<devices>` given by the XPath
queries of `connect_live`: `./@type`, `./source/@mode`, `./source/@path`,
`./target/@type` and `./target/@name`. -/
structure ChannelNode where
  attr_type : List String
  source_mode : List String
  source_path : List String
  target_type : List String
  target_name : List String
deriving DecidableEq, Repr

/-- What the channel query of `connect_live` (lines 339-349) yields: no object
(`xmlXPathEvalExpression` returns NULL), an object whose `nodesetval` is NULL
(what libxml2 returns for a description without a `devices` element), or a
node set, given by the `<channel>` nodes under `<devices>` in document order,
among which the predicate of the expression selects. -/
inductive ChannelQuery where
  | no_object
  | no_nodeset
  | nodeset (channels : List ChannelNode)
deriving DecidableEq, Repr

/-- A parsed domain description: the `<disk>` nodes under `<devices>` in
document order (`none` when `xmlXPathEvalExpression` returns NULL for the disk
query), and the outcome of the channel query. -/
structure xmlDoc where
  disks : Option (List DiskNode)
  channels : ChannelQuery
deriving DecidableEq, Repr

/-- What the retrieval of the description yields: no XML text
(`virDomainGetXMLDesc` returns NULL), no document (`xmlParseMemory` returns
NULL), no XPath context (`xmlXPathNewContext` returns NULL), or a document. -/
inductive XMLDesc where
  | no_xml
  | no_doc
  | no_context
  | doc (d : xmlDoc)
deriving DecidableEq, Repr

/-- The libvirt enumeration `virDomainState`. -/
inductive virDomainState where
  | VIR_DOMAIN_NOSTATE
  | VIR_DOMAIN_RUNNING
  | VIR_DOMAIN_BLOCKED
  | VIR_DOMAIN_PAUSED
  | VIR_DOMAIN_SHUTDOWN
  | VIR_DOMAIN_SHUTOFF
  | VIR_DOMAIN_CRASHED
  | VIR_DOMAIN_PMSUSPENDED
deriving DecidableEq, Repr

/-- A libvirt domain as seen by this file: the state reported by
`virDomainGetInfo` (`none` when that call returns -1) and its description. -/
structure virDomain where
  info : Option virDomainState
  xml : XMLDesc
deriving DecidableEq, Repr

/-! ## Library functions called by this file -/

/-- The call `error (g, ...)`, recorded in the trace. -/
def error (g : guestfs_h) (e : ErrorMsg) : guestfs_h :=
  { g with trace := g.trace ++ [Event.error e] }

/-- Append one event to the trace. -/
def log (g : guestfs_h) (e : Event) : guestfs_h :=
  { g with trace := g.trace ++ [e] }

/-- Modelled from the spec: `guestfs___checkpoint_drives` is defined outside
this file; the checkpoint marks the position in the registration list (its
current length). -/
def guestfs___checkpoint_drives (g : guestfs_h) : guestfs_h × Nat :=
  (log g Event.checkpoint_drives, g.drives.length)

/-- Modelled from the spec: `guestfs___rollback_drives` is defined outside
this file; the rollback truncates the registration list back to the mark. -/
def guestfs___rollback_drives (g : guestfs_h) (ckp : Nat) : guestfs_h :=
  { log g (Event.rollback_drives ckp) with drives := g.drives.take ckp }

/-- Modelled from the spec: `guestfs__add_drive_opts` is defined outside this
file; the single-disk registration either appends one entry and returns 0, or
fails, returns -1 and leaves the list as it was. -/
def guestfs__add_drive_opts (B : Backend) (g : guestfs_h) (filename : String)
    (optargs : guestfs_add_drive_opts_argv) : guestfs_h × Int :=
  let g1 := log g (Event.add_drive_opts filename optargs)
  if B.add_drive_ok g filename optargs then
    ({ g1 with drives := g1.drives ++ [⟨filename, optargs⟩] }, 0)
  else
    (g1, -1)

/-- Modelled from the spec: `guestfs_set_attach_method` is defined outside this
file; the attach-method configuration either stores the connection
specification and returns 0, or rejects it and returns -1. -/
def guestfs_set_attach_method (B : Backend) (g : guestfs_h) (method : String) :
    guestfs_h × Int :=
  let g1 := log g (Event.set_attach_method method)
  if B.set_attach_method_ok g method then
    ({ g1 with attach_method := method }, 0)
  else
    (g1, -1)

/-! ## The functions of libvirt-domain.c -/

/-- The type of the callback of `for_each_disk`:
`int (*f) (guestfs_h *g, const char *filename, const char *format, int readonly, void *data)`.
The callback may change the handle and the data it points to. -/
abbrev Visitor (δ : Type) :=
  guestfs_h → String → Option String → Int → δ → (guestfs_h × δ) × Int

/-- The function `add_disk` (lines 251-300).  The local `readonly` is not
initialised on the paths that skip or fail; it is not read there, and is 0
here. -/
def add_disk (B : Backend) : Visitor add_disk_data :=
  fun g filename format readonly_in_xml data =>
    let optargs := data.optargs
    let (readonly, error_, skip) : Int × Int × Int :=
      if readonly_in_xml ≠ 0 then
        if data.readonly ≠ 0 then
          match data.readonlydisk with
          | .readonlydisk_error => (1, 0, 0)
          | .readonlydisk_read => (1, 0, 0)
          | .readonlydisk_write => (1, 0, 0)
          | .readonlydisk_ignore => (0, 0, 1)
        else
          match data.readonlydisk with
          | .readonlydisk_error => (0, 1, 0)
          | .readonlydisk_read => (1, 0, 0)
          | .readonlydisk_write => (0, 0, 0)
          | .readonlydisk_ignore => (0, 0, 1)
      else
        (data.readonly, 0, 0)
    if skip ≠ 0 then
      ((g, data), 0)
    else if error_ ≠ 0 then
      ((error g (ErrorMsg.disk_marked_readonly filename), data), -1)
    else
      let optargs := { optargs with readonly := some readonly }
      let optargs :=
        match format with
        | some fmt => { optargs with format := some fmt }
        | none => optargs
      let r := guestfs__add_drive_opts B g filename optargs
      ((r.1, data), r.2)

/-- The XPath predicate of `connect_live`:
`@type="unix" and ./source/@mode="bind" and ./source/@path and
./target/@type="virtio" and ./target/@name="org.libguestfs.channel.0"`.
A comparison of a node set with a string holds when some node of the set has
that string value; a bare node set holds when it is not empty. -/
def guestfsd_channel (c : ChannelNode) : Bool :=
  decide ("unix" ∈ c.attr_type) && decide ("bind" ∈ c.source_mode) &&
    !c.source_path.isEmpty && decide ("virtio" ∈ c.target_type) &&
    decide ("org.libguestfs.channel.0" ∈ c.target_name)

/-- The XPath expression of `connect_live` (lines 340-344). -/
def channel_xpath : String :=
  "//devices/channel[@type=\"unix\" and " ++
                    "./source/@mode=\"bind\" and " ++
                    "./source/@path and " ++
                    "./target/@type=\"virtio\" and " ++
                    "./target/@name=\"org.libguestfs.channel.0\"]"

/-- The loop of `connect_live` (lines 351-372) over the selected nodes: the
first node whose `./source/@path` is not empty gives the path. -/
def connect_live_loop : List ChannelNode → Option String
  | [] => none
  | node :: nodes =>
    match node.source_path with
    | [] => connect_live_loop nodes
    | path :: _ => some path

/-- The function `connect_live` (lines 302-383).  The second component is
`none` when the function does not return: line 352 reads `nodes->nodeNr`, and
`nodes` is NULL when the object has no node set (there is no test, unlike
lines 361-363 for the query relative to a node). -/
def connect_live (B : Backend) (g : guestfs_h) (dom : virDomain) :
    guestfs_h × Option Int :=
  let g := log g Event.virDomainGetXMLDesc
  match dom.xml with
  | .no_xml => (error g ErrorMsg.reading_xml, some (-1))
  | .no_doc => (error g ErrorMsg.parse_xml, some (-1))
  | .no_context => (error g ErrorMsg.xpath_context, some (-1))
  | .doc d =>
    let g := log g (Event.xmlXPathEvalExpression channel_xpath)
    match d.channels with
    | .no_object => (error g ErrorMsg.xpath_eval, some (-1))
    | .no_nodeset => (g, none)
    | .nodeset channels =>
      let nodes := channels.filter guestfsd_channel
      match connect_live_loop nodes with
      | none => (error g ErrorMsg.no_channel, some (-1))
      | some path =>
        let r := guestfs_set_attach_method B g ("unix:" ++ path)
        (r.1, some r.2)

/-- The file name of a `<disk>` node (lines 458-493): `./source/@file` when
the type is "file", `./source/@dev` when it is "block"; `none` stands for the
`continue` statements (no type, another type, or no such attribute). -/
def disk_filename (node : DiskNode) : Option String :=
  match node.xptype with
  | [] => none
  | type :: _ =>
    if type = "file" then
      node.xpfilename_file.head?
    else if type = "block" then
      node.xpfilename_dev.head?
    else
      none

/-- The loop of `for_each_disk` (lines 439-525).  The second component is
`none` when the loop leaves the function with `return -1`, otherwise the value
of `nr_added` after the loop. -/
def for_each_disk_loop {δ : Type} (f : Option (Visitor δ)) :
    List DiskNode → guestfs_h → δ → Nat → (guestfs_h × δ) × Option Nat
  | [], g, data, nr_added => ((g, data), some nr_added)
  | node :: nodes, g, data, nr_added =>
    match disk_filename node with
    | none => for_each_disk_loop f nodes g data nr_added
    | some filename =>
      let format := node.xpformat.head?
      let readonly : Int := if node.xpreadonly > 0 then 1 else 0
      let r : (guestfs_h × δ) × Int :=
        match f with
        | some f => f g filename format readonly data
        | none => ((g, data), 0)
      if r.2 = -1 then
        (r.1, none)
      else
        for_each_disk_loop f nodes r.1.1 r.1.2 (nr_added + 1)

/-- The function `for_each_disk` (lines 389-534). -/
def for_each_disk {δ : Type} (g : guestfs_h) (dom : virDomain)
    (f : Option (Visitor δ)) (data : δ) : (guestfs_h × δ) × Int :=
  let g := log g Event.virDomainGetXMLDesc
  match dom.xml with
  | .no_xml => ((error g ErrorMsg.reading_xml, data), -1)
  | .no_doc => ((error g ErrorMsg.parse_xml, data), -1)
  | .no_context => ((error g ErrorMsg.xpath_context, data), -1)
  | .doc d =>
    let g := log g (Event.xmlXPathEvalExpression "//devices/disk")
    match d.disks with
    | none => ((error g ErrorMsg.xpath_eval, data), -1)
    | some nodes =>
      match for_each_disk_loop f nodes g data 0 with
      | (s, none) => (s, -1)
      | ((g, data), some nr_added) =>
        if nr_added = 0 then
          ((error g ErrorMsg.no_disks, data), -1)
        else
          ((g, data), (nr_added : Int))

/-- The parsing of the `readonlydisk` argument (lines 167 and 181-194): the
default is `readonlydisk_write`; `none` stands for the unknown parameter. -/
def parse_readonlydisk : Option String → Option readonlydisk
  | none => some .readonlydisk_write
  | some s =>
    if s = "error" then some .readonlydisk_error
    else if s = "read" then some .readonlydisk_read
    else if s = "write" then some .readonlydisk_write
    else if s = "ignore" then some .readonlydisk_ignore
    else none

/-- The last part of `guestfs___add_libvirt_dom`, under the comment "Add the
disks" (lines 231-248): the data of the visitor, the checkpoint, the
enumeration with `add_disk`, and the rollback when it returns -1. -/
def add_the_disks (B : Backend) (g : guestfs_h) (dom : virDomain) (readonly : Int)
    (readonlydisk : readonlydisk) (iface : Option String) : guestfs_h × Int :=
  let data : add_disk_data :=
    { readonly := readonly, readonlydisk := readonlydisk,
      optargs := { readonly := none, format := none, iface := iface } }
  let ckp := guestfs___checkpoint_drives g
  let r := for_each_disk ckp.1 dom (some (add_disk B)) data
  if r.2 = -1 then
    (guestfs___rollback_drives r.1.1 ckp.2, r.2)
  else
    (r.1.1, r.2)

/-- A call that returns: its handle and its result. -/
def returned (r : guestfs_h × Int) : guestfs_h × Option Int :=
  (r.1, some r.2)

/-- The function `guestfs___add_libvirt_dom` (lines 158-249).  The second
component is `none` when the call does not return (see `connect_live`). -/
def guestfs___add_libvirt_dom (B : Backend) (g : guestfs_h) (dom : virDomain)
    (optargs : guestfs___add_libvirt_dom_argv) : guestfs_h × Option Int :=
  let readonly : Int := optargs.readonly.getD 0
  let iface : Option String := optargs.iface
  let live : Int := optargs.live.getD 0
  match parse_readonlydisk optargs.readonlydisk with
  | none => (error g ErrorMsg.unknown_readonlydisk, some (-1))
  | some readonlydisk =>
    if live ≠ 0 ∧ readonly ≠ 0 then
      (error g ErrorMsg.live_and_readonly, some (-1))
    else if readonly = 0 then
      let g := log g Event.virDomainGetInfo
      match dom.info with
      | none => (error g ErrorMsg.domain_info, some (-1))
      | some state =>
        if state ≠ virDomainState.VIR_DOMAIN_SHUTOFF then
          if live ≠ 0 then
            connect_live B g dom
          else
            (error g ErrorMsg.domain_is_live, some (-1))
        else
          returned (add_the_disks B g dom readonly readonlydisk iface)
    else
      returned (add_the_disks B g dom readonly readonlydisk iface)

/-! ## Definitions that follow the words of the specification -/

/-- The decisions of the policy resolver (specification, section 4.3). -/
inductive Decision where
  | Register (readonly : Int)
  | Skip
  | Fail
deriving DecidableEq, Repr

/-- The decision table of the specification (section 4.3), row by row;
`Register(readonly=true)` is `Register 1` and `Register(readonly=false)` is
`Register 0`. -/
def policy_table (requestedReadonly declaredReadonly : Bool)
    (conflictMode : readonlydisk) : Decision :=
  match requestedReadonly, declaredReadonly, conflictMode with
  | true, true, _ => .Register 1
  | true, false, _ => .Register 1
  | false, false, _ => .Register 0
  | false, true, .readonlydisk_error => .Fail
  | false, true, .readonlydisk_read => .Register 1
  | false, true, .readonlydisk_write => .Register 0
  | false, true, .readonlydisk_ignore => .Skip

/-- What a decision means for the visitor (specification, section 4.4, steps 2
to 4): `Register` calls the registration primitive once with the path, the
format if present and the read-only flag, and returns its result; `Skip`
returns 0 and `Fail` reports the conflict and returns -1, neither calling the
primitive. -/
def carry_out (B : Backend) (g : guestfs_h) (filename : String)
    (format : Option String) (data : add_disk_data) :
    Decision → (guestfs_h × add_disk_data) × Int
  | .Register readonly =>
    let r := guestfs__add_drive_opts B g filename
      { readonly := some readonly,
        format := match format with
          | some fmt => some fmt
          | none => data.optargs.format,
        iface := data.optargs.iface }
    ((r.1, data), r.2)
  | .Skip => ((g, data), 0)
  | .Fail => ((error g (ErrorMsg.disk_marked_readonly filename), data), -1)

/-- The arguments of one invocation of the visitor: the disk descriptor of the
specification (section 3) as the callback receives it. -/
structure Invocation where
  filename : String
  format : Option String
  readonly : Int
deriving DecidableEq, Repr

/-- A disk node is eligible when its type is "file" and it has a source/@file
attribute, or its type is "block" and it has a source/@dev attribute. -/
def eligible (node : DiskNode) : Bool :=
  (decide (node.xptype.head? = some "file") && !node.xpfilename_file.isEmpty) ||
  (decide (node.xptype.head? = some "block") && !node.xpfilename_dev.isEmpty)

/-- The descriptor of an eligible node: the path from the attribute of its
kind, the format from driver/@type if present, and read-only 1 exactly when a
readonly child exists. -/
def descriptor (node : DiskNode) : Invocation :=
  { filename :=
      if node.xptype.head? = some "file" then node.xpfilename_file.headD ""
      else node.xpfilename_dev.headD "",
    format := node.xpformat.head?,
    readonly := if 0 < node.xpreadonly then 1 else 0 }

/-- The descriptors of the eligible nodes, in document order. -/
def eligible_disks (nodes : List DiskNode) : List Invocation :=
  (nodes.filter eligible).map descriptor

/-- The outcome of a fail-fast pass: the invocations made, the state reached,
and the number of successful invocations (`none` when one failed). -/
structure Pass (δ : Type) where
  invoked : List Invocation
  g : guestfs_h
  data : δ
  count : Option Nat

/-- The fail-fast pass of the specification (section 4.2) over a list of
descriptors: the visitor is invoked on each in turn; the first invocation that
returns -1 is the last one. -/
def visit_in_order {δ : Type} (f : Visitor δ) :
    List Invocation → guestfs_h → δ → Pass δ
  | [], g, data => { invoked := [], g := g, data := data, count := some 0 }
  | i :: rest, g, data =>
    let r := f g i.filename i.format i.readonly data
    if r.2 = -1 then
      { invoked := [i], g := r.1.1, data := r.1.2, count := none }
    else
      let p := visit_in_order f rest r.1.1 r.1.2
      { p with invoked := i :: p.invoked, count := p.count.map (· + 1) }

/-- A visitor that behaves as `f` and also records its arguments. -/
def recording {δ : Type} (f : Visitor δ) : Visitor (δ × List Invocation) :=
  fun g filename format readonly data =>
    let r := f g filename format readonly data.1
    ((r.1.1, (r.1.2, data.2 ++ [⟨filename, format, readonly⟩])), r.2)

/-- The call of `guestfs___add_libvirt_dom` reaches the code under "Add the
disks": the `readonlydisk` argument is known, `live` and `readonly` are not both
set, and either read-only access is requested or the domain is shut off. -/
def disk_registration_path (dom : virDomain)
    (optargs : guestfs___add_libvirt_dom_argv) : Bool :=
  (parse_readonlydisk optargs.readonlydisk).isSome &&
  !(decide (optargs.live.getD 0 ≠ 0) && decide (optargs.readonly.getD 0 ≠ 0)) &&
  (decide (optargs.readonly.getD 0 ≠ 0) ||
    decide (dom.info = some virDomainState.VIR_DOMAIN_SHUTOFF))

/-- The policy skips a disk: it carries the readonly marker and the conflict
mode is `readonlydisk_ignore`. -/
def skipped_by_policy (conflictMode : readonlydisk) (i : Invocation) : Bool :=
  decide (i.readonly ≠ 0) && decide (conflictMode = .readonlydisk_ignore)

/-- The decision `add_disk` takes, read off its two switch statements (lines
261-280): the request flag, the conflict mode and the marker give the
decision. -/
def add_disk_decision (readonly : Int) (conflictMode : readonlydisk)
    (readonly_in_xml : Int) : Decision :=
  if readonly_in_xml ≠ 0 then
    if readonly ≠ 0 then
      match conflictMode with
      | .readonlydisk_error => .Register 1
      | .readonlydisk_read => .Register 1
      | .readonlydisk_write => .Register 1
      | .readonlydisk_ignore => .Skip
    else
      match conflictMode with
      | .readonlydisk_error => .Fail
      | .readonlydisk_read => .Register 1
      | .readonlydisk_write => .Register 0
      | .readonlydisk_ignore => .Skip
  else
    .Register readonly

/-- The handle when the loop of `for_each_disk` starts: the description has
been retrieved and the disk nodes selected. -/
def at_loop_start (g : guestfs_h) : guestfs_h :=
  log (log g Event.virDomainGetXMLDesc) (Event.xmlXPathEvalExpression "//devices/disk")

/-! ## Concrete inputs -/

/-- A backend that accepts every call. -/
def accept_all : Backend :=
  { add_drive_ok := fun _ _ _ => true, set_attach_method_ok := fun _ _ => true }

/-- A backend whose registration primitive rejects the path "/b.img". -/
def reject_b : Backend :=
  { add_drive_ok := fun _ filename _ => decide (filename ≠ "/b.img"),
    set_attach_method_ok := fun _ _ => true }

/-- A fresh handle. -/
def g_empty : guestfs_h :=
  { drives := [], attach_method := "appliance", trace := [] }

/-- A handle with one drive already registered. -/
def g_one : guestfs_h :=
  { drives := [⟨"/old.img", { readonly := some 0, format := none, iface := none }⟩],
    attach_method := "appliance", trace := [] }

/-- No optional argument set. -/
def no_args : guestfs___add_libvirt_dom_argv :=
  { readonly := none, iface := none, live := none, readonlydisk := none }

/-- No pass-through options. -/
def no_optargs : guestfs_add_drive_opts_argv :=
  { readonly := none, format := none, iface := none }

/-- A file-backed disk node with the readonly marker. -/
def disk_a_readonly : DiskNode :=
  { xptype := ["file"], xpfilename_file := ["/a.img"], xpfilename_dev := [],
    xpformat := ["raw"], xpreadonly := 1 }

/-- A file-backed disk node without the readonly marker. -/
def disk_a : DiskNode :=
  { xptype := ["file"], xpfilename_file := ["/a.img"], xpfilename_dev := [],
    xpformat := [], xpreadonly := 0 }

/-- A second file-backed disk node. -/
def disk_b : DiskNode :=
  { xptype := ["file"], xpfilename_file := ["/b.img"], xpfilename_dev := [],
    xpformat := [], xpreadonly := 0 }

/-- A file-backed disk node whose source/@file attribute is the empty string. -/
def disk_empty_path : DiskNode :=
  { xptype := ["file"], xpfilename_file := [""], xpfilename_dev := [],
    xpformat := [], xpreadonly := 0 }

/-- A network disk node: not eligible. -/
def disk_network : DiskNode :=
  { xptype := ["network"], xpfilename_file := [], xpfilename_dev := [],
    xpformat := [], xpreadonly := 0 }

/-- A shut-off domain with the given disk nodes and no channel. -/
def shutoff_domain (nodes : List DiskNode) : virDomain :=
  { info := some .VIR_DOMAIN_SHUTOFF,
    xml := .doc { disks := some nodes, channels := .nodeset [] } }

/-- A guestfsd channel with the given socket path. -/
def channel_at (path : String) : ChannelNode :=
  { attr_type := ["unix"], source_mode := ["bind"], source_path := [path],
    target_type := ["virtio"], target_name := ["org.libguestfs.channel.0"] }

/-- A running domain with the given channels and one disk. -/
def running_domain (channels : List ChannelNode) : virDomain :=
  { info := some .VIR_DOMAIN_RUNNING,
    xml := .doc { disks := some [disk_a], channels := .nodeset channels } }

/-- A running domain whose description has no `devices` element: no disk node,
and a channel query that yields an object without a node set. -/
def running_domain_without_devices : virDomain :=
  { info := some .VIR_DOMAIN_RUNNING,
    xml := .doc { disks := some [], channels := .no_nodeset } }

/-- A visitor that changes nothing and succeeds. -/
def visit_ok : Visitor Unit :=
  fun g _ _ _ data => ((g, data), 0)

/-- A visitor that fails on the path "/b.img". -/
def visit_fail_b : Visitor Unit :=
  fun g filename _ _ data => ((g, data), if filename = "/b.img" then -1 else 0)

/-! ## Auxiliary facts about the enumeration -/

theorem disk_filename_eq (node : DiskNode) :
    disk_filename node =
      if eligible node then some (descriptor node).filename else none := by
  rcases node with ⟨ty, file, dev, fmt, ro⟩
  cases ty with
  | nil => simp [disk_filename, eligible]
  | cons t ts =>
    by_cases h1 : t = "file"
    · subst h1
      cases file <;> simp [disk_filename, eligible, descriptor]
    · by_cases h2 : t = "block"
      · subst h2
        cases dev <;> simp [disk_filename, eligible, descriptor]
      · simp [disk_filename, eligible, h1, h2]

theorem eligible_disks_cons (node : DiskNode) (nodes : List DiskNode) :
    eligible_disks (node :: nodes) =
      if eligible node then descriptor node :: eligible_disks nodes
      else eligible_disks nodes := by
  by_cases h : eligible node <;> simp [eligible_disks, List.filter_cons, h]

theorem for_each_disk_loop_eq {δ : Type} (f : Visitor δ) (nodes : List DiskNode) :
    ∀ (g : guestfs_h) (data : δ) (nr_added : Nat),
      for_each_disk_loop (some f) nodes g data nr_added =
        (((visit_in_order f (eligible_disks nodes) g data).g,
          (visit_in_order f (eligible_disks nodes) g data).data),
         (visit_in_order f (eligible_disks nodes) g data).count.map (· + nr_added)) := by
  induction nodes with
  | nil => intro g data n; simp [for_each_disk_loop, eligible_disks, visit_in_order]
  | cons node nodes ih =>
    intro g data n
    rw [eligible_disks_cons]
    by_cases h : eligible node
    · simp only [for_each_disk_loop, disk_filename_eq, h, if_true, visit_in_order]
      have hf : (descriptor node).format = node.xpformat.head? := rfl
      have hr : (descriptor node).readonly = (if node.xpreadonly > 0 then 1 else 0) := rfl
      rw [← hf, ← hr]
      by_cases ht : (f g (descriptor node).filename (descriptor node).format
          (descriptor node).readonly data).2 = -1
      · simp [ht]
      · simp only [ht, if_false, ih]
        cases (visit_in_order f (eligible_disks nodes) _ _).count with
        | none => simp
        | some k => simp; omega
    · simp only [for_each_disk_loop, disk_filename_eq, h, ih]
      simp

theorem for_each_disk_loop_none {δ : Type} (nodes : List DiskNode)
    (h : ∀ node ∈ nodes, eligible node = false) (f : Option (Visitor δ)) :
    ∀ (g : guestfs_h) (data : δ) (nr_added : Nat),
      for_each_disk_loop f nodes g data nr_added = ((g, data), some nr_added) := by
  induction nodes with
  | nil => intro g data n; rfl
  | cons node nodes ih =>
    intro g data n
    have h1 : eligible node = false := h node (List.mem_cons_self _ _)
    have h2 : ∀ x ∈ nodes, eligible x = false :=
      fun x hx => h x (List.mem_cons_of_mem _ hx)
    simp [for_each_disk_loop, disk_filename_eq, h1, ih h2]

theorem visit_in_order_recording {δ : Type} (f : Visitor δ) (l : List Invocation) :
    ∀ (g : guestfs_h) (data : δ) (seen : List Invocation),
      visit_in_order (recording f) l g (data, seen) =
        { invoked := (visit_in_order f l g data).invoked,
          g := (visit_in_order f l g data).g,
          data := ((visit_in_order f l g data).data,
                   seen ++ (visit_in_order f l g data).invoked),
          count := (visit_in_order f l g data).count } := by
  induction l with
  | nil => intro g data seen; simp [visit_in_order]
  | cons i rest ih =>
    intro g data seen
    by_cases ht : (f g i.filename i.format i.readonly data).2 = -1
    · simp [visit_in_order, recording, ht]
    · simp [visit_in_order, recording, ht, ih]

theorem visit_in_order_invoked {δ : Type} (f : Visitor δ) (l : List Invocation) :
    ∀ (g : guestfs_h) (data : δ),
      (∃ rest, l = (visit_in_order f l g data).invoked ++ rest) ∧
      (∀ k, (visit_in_order f l g data).count = some k →
        (visit_in_order f l g data).invoked = l ∧ k = l.length) := by
  induction l with
  | nil => intro g data; simp [visit_in_order]
  | cons i rest ih =>
    intro g data
    by_cases ht : (f g i.filename i.format i.readonly data).2 = -1
    · simp [visit_in_order, ht]
    · obtain ⟨⟨r, hr⟩, hk⟩ := ih (f g i.filename i.format i.readonly data).1.1
        (f g i.filename i.format i.readonly data).1.2
      refine ⟨⟨r, ?_⟩, ?_⟩
      · simp only [visit_in_order, ht, if_false, List.cons_append]
        rw [← hr]
      · intro k hc
        simp only [visit_in_order, ht, if_false, Option.map_eq_some'] at hc
        obtain ⟨k0, hk0, rfl⟩ := hc
        obtain ⟨h1, h2⟩ := hk k0 hk0
        simp [visit_in_order, ht, h1, h2]

theorem for_each_disk_doc {δ : Type} (g : guestfs_h) (info : Option virDomainState)
    (nodes : List DiskNode) (channels : ChannelQuery)
    (f : Visitor δ) (data : δ) :
    for_each_disk g ⟨info, .doc ⟨some nodes, channels⟩⟩ (some f) data =
      match (visit_in_order f (eligible_disks nodes)
          (log (log g Event.virDomainGetXMLDesc)
            (Event.xmlXPathEvalExpression "//devices/disk")) data).count with
      | none =>
        (((visit_in_order f (eligible_disks nodes)
            (log (log g Event.virDomainGetXMLDesc)
              (Event.xmlXPathEvalExpression "//devices/disk")) data).g,
          (visit_in_order f (eligible_disks nodes)
            (log (log g Event.virDomainGetXMLDesc)
              (Event.xmlXPathEvalExpression "//devices/disk")) data).data), -1)
      | some k =>
        if k = 0 then
          ((error (visit_in_order f (eligible_disks nodes)
            (log (log g Event.virDomainGetXMLDesc)
              (Event.xmlXPathEvalExpression "//devices/disk")) data).g ErrorMsg.no_disks,
            (visit_in_order f (eligible_disks nodes)
              (log (log g Event.virDomainGetXMLDesc)
                (Event.xmlXPathEvalExpression "//devices/disk")) data).data), -1)
        else
          (((visit_in_order f (eligible_disks nodes)
              (log (log g Event.virDomainGetXMLDesc)
                (Event.xmlXPathEvalExpression "//devices/disk")) data).g,
            (visit_in_order f (eligible_disks nodes)
              (log (log g Event.virDomainGetXMLDesc)
                (Event.xmlXPathEvalExpression "//devices/disk")) data).data), (k : Int)) := by
  simp only [for_each_disk, for_each_disk_loop_eq]
  cases (visit_in_order f (eligible_disks nodes) _ data).count with
  | none => simp
  | some k => simp

/-! ## Auxiliary facts about add_disk as the visitor -/

theorem add_disk_eq_carry_out (B : Backend) (g : guestfs_h) (filename : String)
    (format : Option String) (readonly_in_xml : Int) (data : add_disk_data) :
    add_disk B g filename format readonly_in_xml data =
      carry_out B g filename format data
        (add_disk_decision data.readonly data.readonlydisk readonly_in_xml) := by
  rcases data with ⟨ro, mode, oa⟩
  by_cases hx : readonly_in_xml = 0
  · subst hx
    cases format <;> rfl
  · by_cases hr : ro = 0
    · subst hr
      cases mode <;> cases format <;>
        simp [add_disk, carry_out, add_disk_decision, hx]
    · cases mode <;> cases format <;>
        simp [add_disk, carry_out, add_disk_decision, hx, hr]

theorem carry_out_register (B : Backend) (g : guestfs_h) (filename : String)
    (format : Option String) (data : add_disk_data) (v : Int) :
    (∃ g1, carry_out B g filename format data (.Register v) = ((g1, data), -1) ∧
      g1.drives = g.drives ∧ g1.attach_method = g.attach_method) ∨
    (∃ g1 oa, carry_out B g filename format data (.Register v) = ((g1, data), 0) ∧
      g1.drives = g.drives ++ [⟨filename, oa⟩] ∧
      g1.attach_method = g.attach_method ∧ oa.readonly = some v) := by
  simp only [carry_out, guestfs__add_drive_opts]
  split
  · right
    exact ⟨_, _, rfl, rfl, rfl, rfl⟩
  · left
    exact ⟨_, rfl, rfl, rfl⟩

theorem carry_out_cases (B : Backend) (g : guestfs_h) (filename : String)
    (format : Option String) (data : add_disk_data) (skipped : Bool) (dec : Decision)
    (hskip : dec = .Skip ↔ skipped = true)
    (hreg : ∀ v, dec = .Register v → data.readonly ≠ 0 →
      v ≠ 0 ∧ (data.readonly = 1 → v = 1)) :
    (skipped = true ∧ carry_out B g filename format data dec = ((g, data), 0)) ∨
    (skipped = false ∧
      ∃ g1, carry_out B g filename format data dec = ((g1, data), -1) ∧
        g1.drives = g.drives ∧ g1.attach_method = g.attach_method) ∨
    (skipped = false ∧
      ∃ g1 oa, carry_out B g filename format data dec = ((g1, data), 0) ∧
        g1.drives = g.drives ++ [⟨filename, oa⟩] ∧
        g1.attach_method = g.attach_method ∧
        (data.readonly ≠ 0 → ∃ v, oa.readonly = some v ∧ v ≠ 0 ∧
          (data.readonly = 1 → v = 1))) := by
  cases dec with
  | Skip => exact Or.inl ⟨hskip.mp rfl, rfl⟩
  | Fail =>
    have hs : skipped = false := by
      cases skipped with
      | false => rfl
      | true => exact absurd (hskip.mpr rfl) (by simp)
    exact Or.inr (Or.inl ⟨hs, _, rfl, rfl, rfl⟩)
  | Register v =>
    have hs : skipped = false := by
      cases skipped with
      | false => rfl
      | true => exact absurd (hskip.mpr rfl) (by simp)
    rcases carry_out_register B g filename format data v with ⟨g1, h1, h2, h3⟩ |
      ⟨g1, oa, h1, h2, h3, h4⟩
    · exact Or.inr (Or.inl ⟨hs, g1, h1, h2, h3⟩)
    · exact Or.inr (Or.inr ⟨hs, g1, oa, h1, h2, h3,
        fun h => ⟨v, h4, (hreg v rfl h).1, (hreg v rfl h).2⟩⟩)

theorem add_disk_decision_skip (readonly : Int) (conflictMode : readonlydisk)
    (i : Invocation) :
    add_disk_decision readonly conflictMode i.readonly = .Skip ↔
      skipped_by_policy conflictMode i = true := by
  by_cases hx : i.readonly = 0 <;> by_cases hr : readonly = 0 <;> cases conflictMode <;>
    simp [add_disk_decision, skipped_by_policy, hx, hr]

theorem add_disk_decision_register (readonly : Int) (conflictMode : readonlydisk)
    (readonly_in_xml v : Int)
    (h : add_disk_decision readonly conflictMode readonly_in_xml = .Register v)
    (hr : readonly ≠ 0) : v ≠ 0 ∧ (readonly = 1 → v = 1) := by
  by_cases hx : readonly_in_xml = 0
  · simp [add_disk_decision, hx] at h
    subst h
    exact ⟨hr, id⟩
  · cases conflictMode <;> simp [add_disk_decision, hx, hr] at h <;> subst h <;> simp

theorem add_disk_cases (B : Backend) (g : guestfs_h) (filename : String)
    (format : Option String) (readonly_in_xml : Int) (data : add_disk_data) :
    (skipped_by_policy data.readonlydisk ⟨filename, format, readonly_in_xml⟩ = true ∧
      add_disk B g filename format readonly_in_xml data = ((g, data), 0)) ∨
    (skipped_by_policy data.readonlydisk ⟨filename, format, readonly_in_xml⟩ = false ∧
      ∃ g1, add_disk B g filename format readonly_in_xml data = ((g1, data), -1) ∧
        g1.drives = g.drives ∧ g1.attach_method = g.attach_method) ∨
    (skipped_by_policy data.readonlydisk ⟨filename, format, readonly_in_xml⟩ = false ∧
      ∃ g1 oa, add_disk B g filename format readonly_in_xml data = ((g1, data), 0) ∧
        g1.drives = g.drives ++ [⟨filename, oa⟩] ∧
        g1.attach_method = g.attach_method ∧
        (data.readonly ≠ 0 → ∃ v, oa.readonly = some v ∧ v ≠ 0 ∧
          (data.readonly = 1 → v = 1))) := by
  rw [add_disk_eq_carry_out]
  exact carry_out_cases B g filename format data _ _
    (add_disk_decision_skip data.readonly data.readonlydisk
      ⟨filename, format, readonly_in_xml⟩)
    (fun v h hr => add_disk_decision_register _ _ _ v h hr)

theorem visit_in_order_add_disk (B : Backend) (l : List Invocation) :
    ∀ (g : guestfs_h) (data : add_disk_data),
      (visit_in_order (add_disk B) l g data).data = data ∧
      (visit_in_order (add_disk B) l g data).g.attach_method = g.attach_method ∧
      ∃ appended,
        (visit_in_order (add_disk B) l g data).g.drives = g.drives ++ appended ∧
        (∀ k, (visit_in_order (add_disk B) l g data).count = some k →
          appended.length + (l.filter (skipped_by_policy data.readonlydisk)).length
            = l.length) ∧
        (data.readonly ≠ 0 → ∀ d ∈ appended, ∃ v, d.optargs.readonly = some v ∧
          v ≠ 0 ∧ (data.readonly = 1 → v = 1)) := by
  induction l with
  | nil => intro g data; exact ⟨rfl, rfl, [], by simp [visit_in_order], by simp, by simp⟩
  | cons i rest ih =>
    intro g data
    rcases add_disk_cases B g i.filename i.format i.readonly data with
      ⟨hs, he⟩ | ⟨hs, g1, he, hd, ha⟩ | ⟨hs, g1, oa, he, hd, ha, hro⟩
    · obtain ⟨h1, h2, app, h3, h4, h5⟩ := ih g data
      refine ⟨?_, ?_, app, ?_, ?_, h5⟩
      · simp [visit_in_order, he, h1]
      · simp [visit_in_order, he, h2]
      · simp [visit_in_order, he, h3]
      · intro k hk
        simp [visit_in_order, he] at hk
        obtain ⟨k0, hk0, _⟩ := hk
        have := h4 k0 hk0
        simp only [List.filter_cons, hs, if_true, List.length_cons]
        omega
    · refine ⟨?_, ?_, [], ?_, ?_, by simp⟩
      · simp [visit_in_order, he]
      · simp [visit_in_order, he, ha]
      · simp [visit_in_order, he, hd]
      · intro k hk
        simp [visit_in_order, he] at hk
    · obtain ⟨h1, h2, app, h3, h4, h5⟩ := ih g1 data
      refine ⟨?_, ?_, ⟨i.filename, oa⟩ :: app, ?_, ?_, ?_⟩
      · simp [visit_in_order, he, h1]
      · simp [visit_in_order, he, h2, ha]
      · simp [visit_in_order, he, h3, hd]
      · intro k hk
        simp [visit_in_order, he] at hk
        obtain ⟨k0, hk0, _⟩ := hk
        have := h4 k0 hk0
        simp only [List.filter_cons, hs, List.length_cons]
        simp only [Bool.false_eq_true, if_false]
        omega
      · intro hr d hdm
        rcases List.mem_cons.mp hdm with rfl | hdm
        · exact hro hr
        · exact h5 hr d hdm

/-! ## Auxiliary facts about guestfs___add_libvirt_dom -/

theorem connect_live_drives (B : Backend) (g : guestfs_h) (dom : virDomain) :
    (connect_live B g dom).1.drives = g.drives := by
  rcases dom with ⟨info, xml⟩
  cases xml with
  | no_xml => rfl
  | no_doc => rfl
  | no_context => rfl
  | doc d =>
    rcases d with ⟨disks, channels⟩
    cases channels with
    | no_object => rfl
    | no_nodeset => rfl
    | nodeset chans =>
      simp only [connect_live]
      cases connect_live_loop (List.filter guestfsd_channel chans) with
      | none => rfl
      | some path =>
        simp only [guestfs_set_attach_method]
        split <;> rfl

theorem for_each_disk_add_disk (B : Backend) (g : guestfs_h) (dom : virDomain)
    (data : add_disk_data) :
    (for_each_disk g dom (some (add_disk B)) data).1.1.attach_method = g.attach_method ∧
    ∃ appended,
      (for_each_disk g dom (some (add_disk B)) data).1.1.drives = g.drives ++ appended ∧
      (data.readonly ≠ 0 → ∀ d ∈ appended, ∃ v, d.optargs.readonly = some v ∧
        v ≠ 0 ∧ (data.readonly = 1 → v = 1)) := by
  rcases dom with ⟨info, xml⟩
  cases xml with
  | no_xml => exact ⟨rfl, [], by simp [for_each_disk, error, log], by simp⟩
  | no_doc => exact ⟨rfl, [], by simp [for_each_disk, error, log], by simp⟩
  | no_context => exact ⟨rfl, [], by simp [for_each_disk, error, log], by simp⟩
  | doc d =>
    rcases d with ⟨disks, channels⟩
    cases disks with
    | none => exact ⟨rfl, [], by simp [for_each_disk, error, log], by simp⟩
    | some nodes =>
      rw [for_each_disk_doc]
      obtain ⟨_, h2, app, h3, _, h5⟩ := visit_in_order_add_disk B (eligible_disks nodes)
        (log (log g Event.virDomainGetXMLDesc)
          (Event.xmlXPathEvalExpression "//devices/disk")) data
      have h2a : (visit_in_order (add_disk B) (eligible_disks nodes)
        (log (log g Event.virDomainGetXMLDesc)
          (Event.xmlXPathEvalExpression "//devices/disk")) data).g.attach_method
          = g.attach_method := h2
      have h3a : (visit_in_order (add_disk B) (eligible_disks nodes)
        (log (log g Event.virDomainGetXMLDesc)
          (Event.xmlXPathEvalExpression "//devices/disk")) data).g.drives
          = g.drives ++ app := h3
      refine ⟨?_, app, ?_, h5⟩
      · cases (visit_in_order (add_disk B) (eligible_disks nodes) _ data).count with
        | none => exact h2a
        | some k =>
          by_cases hk : k = 0
          · simp only [hk, if_true]; exact h2a
          · simp only [hk, if_false]; exact h2a
      · cases (visit_in_order (add_disk B) (eligible_disks nodes) _ data).count with
        | none => exact h3a
        | some k =>
          by_cases hk : k = 0
          · simp only [hk, if_true]; exact h3a
          · simp only [hk, if_false]; exact h3a

theorem add_the_disks_drives (B : Backend) (g : guestfs_h) (dom : virDomain)
    (readonly : Int) (mode : readonlydisk) (iface : Option String) :
    (add_the_disks B g dom readonly mode iface).1.attach_method = g.attach_method ∧
    ((add_the_disks B g dom readonly mode iface).2 = -1 →
      (add_the_disks B g dom readonly mode iface).1.drives = g.drives) ∧
    ∃ appended,
      (add_the_disks B g dom readonly mode iface).1.drives = g.drives ++ appended ∧
      (readonly ≠ 0 → ∀ d ∈ appended, ∃ v, d.optargs.readonly = some v ∧
        v ≠ 0 ∧ (readonly = 1 → v = 1)) := by
  obtain ⟨h1, app, h2, h3⟩ := for_each_disk_add_disk B (guestfs___checkpoint_drives g).1 dom
    { readonly := readonly, readonlydisk := mode,
      optargs := { readonly := none, format := none, iface := iface } }
  have hc1 : (guestfs___checkpoint_drives g).1.drives = g.drives := rfl
  have hc2 : (guestfs___checkpoint_drives g).1.attach_method = g.attach_method := rfl
  have hc3 : (guestfs___checkpoint_drives g).2 = g.drives.length := rfl
  rw [hc1] at h2
  rw [hc2] at h1
  simp only [add_the_disks]
  split
  · refine ⟨h1, fun _ => ?_, [], ?_, by simp⟩
    · simp [guestfs___rollback_drives, h2, hc3]
    · simp [guestfs___rollback_drives, h2, hc3]
  · next hne =>
    exact ⟨h1, fun h => absurd h hne, app, h2, h3⟩

theorem add_libvirt_dom_drives (B : Backend) (g : guestfs_h) (dom : virDomain)
    (optargs : guestfs___add_libvirt_dom_argv) :
    ((guestfs___add_libvirt_dom B g dom optargs).2 = some (-1) →
      (guestfs___add_libvirt_dom B g dom optargs).1.drives = g.drives) ∧
    ∃ appended,
      (guestfs___add_libvirt_dom B g dom optargs).1.drives = g.drives ++ appended ∧
      (optargs.readonly.getD 0 ≠ 0 → ∀ d ∈ appended, ∃ v, d.optargs.readonly = some v ∧
        v ≠ 0 ∧ (optargs.readonly.getD 0 = 1 → v = 1)) := by
  simp only [guestfs___add_libvirt_dom]
  cases parse_readonlydisk optargs.readonlydisk with
  | none => exact ⟨fun _ => rfl, [], by simp [error], by simp⟩
  | some mode =>
    simp only []
    split
    · exact ⟨fun _ => rfl, [], by simp [error], by simp⟩
    · split
      · next hro =>
        cases dom.info with
        | none => exact ⟨fun _ => rfl, [], by simp [error, log], by simp⟩
        | some state =>
          simp only []
          split
          · split
            · refine ⟨fun _ => ?_, [], ?_, by simp⟩
              · rw [connect_live_drives]; rfl
              · rw [connect_live_drives]; simp [log]
            · exact ⟨fun _ => rfl, [], by simp [error, log], by simp⟩
          · obtain ⟨_, h2, app, h3, h4⟩ := add_the_disks_drives B
              (log g Event.virDomainGetInfo) dom (optargs.readonly.getD 0) mode optargs.iface
            exact ⟨fun h => h2 (Option.some.inj h), app, h3, h4⟩
      · obtain ⟨_, h2, app, h3, h4⟩ := add_the_disks_drives B g dom
          (optargs.readonly.getD 0) mode optargs.iface
        exact ⟨fun h => h2 (Option.some.inj h), app, h3, h4⟩

theorem add_disk_decision_no_fail (readonly : Int) (conflictMode : readonlydisk)
    (readonly_in_xml : Int) (hr : readonly ≠ 0) :
    add_disk_decision readonly conflictMode readonly_in_xml ≠ .Fail := by
  by_cases hx : readonly_in_xml = 0 <;> cases conflictMode <;>
    simp [add_disk_decision, hx, hr]

theorem add_drive_opts_trace (B : Backend) (g : guestfs_h) (filename : String)
    (optargs : guestfs_add_drive_opts_argv) :
    (guestfs__add_drive_opts B g filename optargs).1.trace =
      g.trace ++ [Event.add_drive_opts filename optargs] := by
  simp only [guestfs__add_drive_opts]
  split <;> rfl

theorem add_libvirt_dom_on_path (B : Backend) (g : guestfs_h) (dom : virDomain)
    (optargs : guestfs___add_libvirt_dom_argv) (mode : readonlydisk)
    (hpath : disk_registration_path dom optargs = true)
    (hmode : parse_readonlydisk optargs.readonlydisk = some mode) :
    guestfs___add_libvirt_dom B g dom optargs =
      returned (add_the_disks B
        (if optargs.readonly.getD 0 = 0 then log g Event.virDomainGetInfo else g)
        dom (optargs.readonly.getD 0) mode optargs.iface) := by
  simp only [disk_registration_path, hmode, Option.isSome_some, Bool.true_and,
    Bool.and_eq_true, Bool.not_eq_true', Bool.and_eq_false_iff, Bool.or_eq_true,
    decide_eq_true_eq, decide_eq_false_iff_not, ne_eq, not_not] at hpath
  obtain ⟨hboth, hreach⟩ := hpath
  simp only [guestfs___add_libvirt_dom, hmode]
  by_cases hro : optargs.readonly.getD 0 = 0
  · have hinfo : dom.info = some virDomainState.VIR_DOMAIN_SHUTOFF := by
      rcases hreach with h | h
      · exact absurd hro h
      · exact h
    simp [hro, hinfo]
  · have hlive : optargs.live.getD 0 = 0 := by
      rcases hboth with h | h
      · exact h
      · exact absurd h hro
    simp [hro, hlive]

theorem add_the_disks_count (B : Backend) (g : guestfs_h) (info : Option virDomainState)
    (nodes : List DiskNode) (channels : ChannelQuery) (readonly : Int)
    (mode : readonlydisk) (iface : Option String)
    (hok : (add_the_disks B g ⟨info, .doc ⟨some nodes, channels⟩⟩ readonly mode iface).2
      ≠ -1) :
    ∃ appended,
      (add_the_disks B g ⟨info, .doc ⟨some nodes, channels⟩⟩ readonly mode iface).1.drives
        = g.drives ++ appended ∧
      (add_the_disks B g ⟨info, .doc ⟨some nodes, channels⟩⟩ readonly mode iface).2
        = ((eligible_disks nodes).length : Int) ∧
      appended.length + ((eligible_disks nodes).filter (skipped_by_policy mode)).length
        = (eligible_disks nodes).length := by
  obtain ⟨_, _, app, h3, h4, _⟩ := visit_in_order_add_disk B (eligible_disks nodes)
    (log (log (guestfs___checkpoint_drives g).1 Event.virDomainGetXMLDesc)
      (Event.xmlXPathEvalExpression "//devices/disk"))
    { readonly := readonly, readonlydisk := mode,
      optargs := { readonly := none, format := none, iface := iface } }
  obtain ⟨_, h6⟩ := visit_in_order_invoked (add_disk B) (eligible_disks nodes)
    (log (log (guestfs___checkpoint_drives g).1 Event.virDomainGetXMLDesc)
      (Event.xmlXPathEvalExpression "//devices/disk"))
    { readonly := readonly, readonlydisk := mode,
      optargs := { readonly := none, format := none, iface := iface } }
  have h3a : (visit_in_order (add_disk B) (eligible_disks nodes)
      (log (log (guestfs___checkpoint_drives g).1 Event.virDomainGetXMLDesc)
        (Event.xmlXPathEvalExpression "//devices/disk"))
      { readonly := readonly, readonlydisk := mode,
        optargs := { readonly := none, format := none, iface := iface } }).g.drives
      = g.drives ++ app := h3
  simp only [add_the_disks, for_each_disk_doc] at hok ⊢
  cases hc : (visit_in_order (add_disk B) (eligible_disks nodes)
      (log (log (guestfs___checkpoint_drives g).1 Event.virDomainGetXMLDesc)
        (Event.xmlXPathEvalExpression "//devices/disk"))
      { readonly := readonly, readonlydisk := mode,
        optargs := { readonly := none, format := none, iface := iface } }).count with
  | none => simp [hc] at hok
  | some k =>
    have hk := (h6 k hc).2
    have h4k := h4 k hc
    by_cases hk0 : k = 0
    · simp [hc, hk0] at hok
    · have hne : ((k : Int) = -1) = False := by
        apply eq_false
        omega
      simp only [hc, hk0, if_false, hne] at hok ⊢
      exact ⟨app, h3a, by rw [hk], h4k⟩

theorem eligible_source (node : DiskNode) (h : eligible node = true) :
    (node.xptype.head? = some "file" ∧
      node.xpfilename_file.head? = some (descriptor node).filename) ∨
    (node.xptype.head? = some "block" ∧
      node.xpfilename_dev.head? = some (descriptor node).filename) := by
  rcases node with ⟨ty, file, dev, fmt, ro⟩
  by_cases h1 : ty.head? = some "file"
  · cases file with
    | nil => simp [eligible, h1] at h
    | cons a as => left; simp [descriptor, h1]
  · by_cases h2 : ty.head? = some "block"
    · cases dev with
      | nil => simp [eligible, h1, h2] at h
      | cons a as => right; simp [descriptor, h1, h2]
    · simp [eligible, h1, h2] at h

theorem connect_live_loop_filter (channels : List ChannelNode) :
    connect_live_loop (channels.filter guestfsd_channel) =
      match channels.filter guestfsd_channel with
      | [] => none
      | c :: _ => c.source_path.head? := by
  cases hc : channels.filter guestfsd_channel with
  | nil => rfl
  | cons c rest =>
    have hmem : c ∈ channels.filter guestfsd_channel := by
      rw [hc]
      exact List.mem_cons_self _ _
    have hq : guestfsd_channel c = true := (List.mem_filter.mp hmem).2
    cases hp : c.source_path with
    | nil => simp [guestfsd_channel, hp] at hq
    | cons path ps => simp [connect_live_loop, hp]

theorem visit_in_order_fail {δ : Type} (f : Visitor δ) (l : List Invocation) :
    ∀ (g : guestfs_h) (data : δ), (visit_in_order f l g data).count = none →
      ∃ init i rest, l = init ++ i :: rest ∧
        (visit_in_order f l g data).invoked = init ++ [i] ∧
        (visit_in_order f init g data).count = some init.length ∧
        (f (visit_in_order f init g data).g i.filename i.format i.readonly
          (visit_in_order f init g data).data).2 = -1 := by
  induction l with
  | nil => intro g data h; simp [visit_in_order] at h
  | cons i rest ih =>
    intro g data h
    by_cases ht : (f g i.filename i.format i.readonly data).2 = -1
    · exact ⟨[], i, rest, rfl, by simp [visit_in_order, ht], rfl, ht⟩
    · have h1 : (visit_in_order f rest (f g i.filename i.format i.readonly data).1.1
          (f g i.filename i.format i.readonly data).1.2).count = none := by
        simpa [visit_in_order, ht] using h
      obtain ⟨init, x, tl, e1, e2, e3, e4⟩ := ih _ _ h1
      refine ⟨i :: init, x, tl, by rw [e1]; rfl, ?_, ?_, ?_⟩
      · simp [visit_in_order, ht, e2]
      · simp [visit_in_order, ht, e3]
      · simpa [visit_in_order, ht] using e4

theorem for_each_disk_recording {δ : Type} (f : Visitor δ) (data : δ) (g : guestfs_h)
    (info : Option virDomainState) (nodes : List DiskNode)
    (channels : ChannelQuery) :
    (for_each_disk g ⟨info, .doc ⟨some nodes, channels⟩⟩
        (some (recording f)) (data, [])).1.2 =
      ((visit_in_order f (eligible_disks nodes) (at_loop_start g) data).data,
       (visit_in_order f (eligible_disks nodes) (at_loop_start g) data).invoked) ∧
    (for_each_disk g ⟨info, .doc ⟨some nodes, channels⟩⟩
        (some (recording f)) (data, [])).2 =
      match (visit_in_order f (eligible_disks nodes) (at_loop_start g) data).count with
      | none => -1
      | some k => if k = 0 then -1 else (k : Int) := by
  rw [for_each_disk_doc, visit_in_order_recording]
  simp only [at_loop_start, List.nil_append]
  cases (visit_in_order f (eligible_disks nodes) _ data).count with
  | none => exact ⟨rfl, rfl⟩
  | some k =>
    by_cases hk : k = 0
    · simp [hk]
    · simp [hk]

theorem mem_eligible_disks (nodes : List DiskNode) (i : Invocation)
    (h : i ∈ eligible_disks nodes) :
    ∃ node ∈ nodes,
      (node.xptype.head? = some "file" ∧ node.xpfilename_file.head? = some i.filename) ∨
      (node.xptype.head? = some "block" ∧ node.xpfilename_dev.head? = some i.filename) := by
  simp only [eligible_disks, List.mem_map, List.mem_filter] at h
  obtain ⟨node, ⟨hn, he⟩, rfl⟩ := h
  exact ⟨node, hn, eligible_source node he⟩

/-! ## The read-only policy of add_disk -/

/-- C3. Read-write request rows of the policy table: with `data.readonly = 0`,
`add_disk` carries out the decision of the table: a disk without the readonly
marker is registered read-write in every conflict mode; with the marker,
`readonlydisk_error` fails (returns -1, no call of the registration
primitive), `readonlydisk_read` registers read-only, `readonlydisk_write`
registers read-write and `readonlydisk_ignore` skips (returns 0, no call). -/
theorem add_disk_readwrite_request (B : Backend) (g : guestfs_h) (filename : String)
    (format : Option String) (readonly_in_xml : Int) (conflictMode : readonlydisk)
    (optargs : guestfs_add_drive_opts_argv) :
    add_disk B g filename format readonly_in_xml ⟨0, conflictMode, optargs⟩ =
      carry_out B g filename format ⟨0, conflictMode, optargs⟩
        (policy_table false (decide (readonly_in_xml ≠ 0)) conflictMode) ∧
    policy_table false false conflictMode = .Register 0 ∧
    policy_table false true .readonlydisk_error = .Fail ∧
    policy_table false true .readonlydisk_read = .Register 1 ∧
    policy_table false true .readonlydisk_write = .Register 0 ∧
    policy_table false true .readonlydisk_ignore = .Skip := by
  refine ⟨?_, ?_, rfl, rfl, rfl, rfl⟩
  · by_cases h : readonly_in_xml = 0
    · subst h
      cases conflictMode <;> cases format <;> rfl
    · cases conflictMode <;> cases format <;>
        simp [add_disk, carry_out, policy_table, h]
  · cases conflictMode <;> rfl

/-- C2, as stated, fails: for a read-only request on a disk with the readonly
marker in mode `readonlydisk_ignore`, `add_disk` skips the disk (returns 0,
handle untouched, no call of the registration primitive) instead of carrying
out `Register(readonly=true)`. -/
theorem marked_disk_skipped_in_ignore_mode :
    add_disk accept_all g_empty "/a.img" none 1 ⟨1, .readonlydisk_ignore, no_optargs⟩ =
      ((g_empty, ⟨1, .readonlydisk_ignore, no_optargs⟩), 0) ∧
    add_disk accept_all g_empty "/a.img" none 1 ⟨1, .readonlydisk_ignore, no_optargs⟩ ≠
      carry_out accept_all g_empty "/a.img" none ⟨1, .readonlydisk_ignore, no_optargs⟩
        (policy_table true true .readonlydisk_ignore) := by
  refine ⟨rfl, ?_⟩
  decide

/-- C2, amended. Read-only request rows as the code has them: with
`data.readonly = 1`, `add_disk` registers the disk read-only (one call of the
registration primitive with readonly 1) for every disk and every conflict
mode, except that a disk with the readonly marker is skipped in mode
`readonlydisk_ignore`; it never fails by policy. -/
theorem add_disk_readonly_request (B : Backend) (g : guestfs_h) (filename : String)
    (format : Option String) (readonly_in_xml : Int) (conflictMode : readonlydisk)
    (optargs : guestfs_add_drive_opts_argv) :
    add_disk B g filename format readonly_in_xml ⟨1, conflictMode, optargs⟩ =
      carry_out B g filename format ⟨1, conflictMode, optargs⟩
        (if readonly_in_xml ≠ 0 ∧ conflictMode = .readonlydisk_ignore then .Skip
         else .Register 1) := by
  by_cases h : readonly_in_xml = 0
  · subst h
    cases conflictMode <;> cases format <;> rfl
  · cases conflictMode <;> cases format <;>
      simp [add_disk, carry_out, h]

/-! ## Atomicity of the registration -/

/-- C1. Atomicity of `guestfs___add_libvirt_dom`: with the registration list
an ordered list, the checkpoint its length, the rollback a truncation to that
length and the registration primitive appending one entry or failing without
a change, for every handle, domain, request and choice of the failing calls,
a call that returns -1 leaves the registration list equal to the list before
the call. -/
theorem add_libvirt_dom_atomic (B : Backend) (g : guestfs_h) (dom : virDomain)
    (optargs : guestfs___add_libvirt_dom_argv)
    (h : (guestfs___add_libvirt_dom B g dom optargs).2 = some (-1)) :
    (guestfs___add_libvirt_dom B g dom optargs).1.drives = g.drives :=
  (add_libvirt_dom_drives B g dom optargs).1 h

/-- Witness for C1: the second of two disks is rejected by the registration
primitive; the call returns -1, the primitive was called for both disks, and
the list is the one before the call. -/
theorem add_libvirt_dom_atomic_witness :
    (guestfs___add_libvirt_dom reject_b g_one (shutoff_domain [disk_a, disk_b]) no_args).2
      = some (-1) ∧
    (guestfs___add_libvirt_dom reject_b g_one
      (shutoff_domain [disk_a, disk_b]) no_args).1.trace =
      [Event.virDomainGetInfo, Event.checkpoint_drives, Event.virDomainGetXMLDesc,
       Event.xmlXPathEvalExpression "//devices/disk",
       Event.add_drive_opts "/a.img" { readonly := some 0, format := none, iface := none },
       Event.add_drive_opts "/b.img" { readonly := some 0, format := none, iface := none },
       Event.rollback_drives 1] ∧
    (guestfs___add_libvirt_dom reject_b g_one
      (shutoff_domain [disk_a, disk_b]) no_args).1.drives = g_one.drives :=
  ⟨by decide, by decide,
    add_libvirt_dom_atomic reject_b g_one (shutoff_domain [disk_a, disk_b]) no_args
      (by decide)⟩

/-- C10. A read-only request never opens a disk for writing: when the request
flag `r` is set (non-zero), `add_disk` either skips the disk (handle and data
untouched, returns 0) or calls the registration primitive exactly once, with
the read-only option set to a non-zero value that is 1 when `r` is 1; and
every entry `guestfs___add_libvirt_dom` appends to the registration list under
such a request carries that read-only option. -/
theorem readonly_request_never_writable (B : Backend) (g : guestfs_h)
    (filename : String) (format : Option String) (readonly_in_xml : Int)
    (conflictMode : readonlydisk) (optargs : guestfs_add_drive_opts_argv)
    (dom : virDomain) (iface : Option String) (live : Option Int)
    (rd : Option String) (r : Int) (hr : r ≠ 0) :
    (add_disk B g filename format readonly_in_xml ⟨r, conflictMode, optargs⟩ =
        ((g, ⟨r, conflictMode, optargs⟩), 0) ∨
      ∃ v oa, v ≠ 0 ∧ (r = 1 → v = 1) ∧ oa.readonly = some v ∧
        add_disk B g filename format readonly_in_xml ⟨r, conflictMode, optargs⟩ =
          (((guestfs__add_drive_opts B g filename oa).1, ⟨r, conflictMode, optargs⟩),
            (guestfs__add_drive_opts B g filename oa).2) ∧
        (add_disk B g filename format readonly_in_xml
            ⟨r, conflictMode, optargs⟩).1.1.trace =
          g.trace ++ [Event.add_drive_opts filename oa]) ∧
    ∃ appended,
      (guestfs___add_libvirt_dom B g dom ⟨some r, iface, live, rd⟩).1.drives =
        g.drives ++ appended ∧
      ∀ d ∈ appended, ∃ v, d.optargs.readonly = some v ∧ v ≠ 0 ∧ (r = 1 → v = 1) := by
  constructor
  · rw [add_disk_eq_carry_out]
    cases hd : add_disk_decision r conflictMode readonly_in_xml with
    | Skip => exact Or.inl rfl
    | Fail => exact absurd hd (add_disk_decision_no_fail r conflictMode readonly_in_xml hr)
    | Register v =>
      obtain ⟨h1, h2⟩ := add_disk_decision_register r conflictMode readonly_in_xml v hd hr
      exact Or.inr ⟨v, _, h1, h2, rfl, rfl, add_drive_opts_trace B g filename _⟩
  · obtain ⟨_, app, h1, h2⟩ := add_libvirt_dom_drives B g dom ⟨some r, iface, live, rd⟩
    exact ⟨app, h1, h2 hr⟩

/-- Witness for C10: a read-only request on a shut-off domain with a marked
and an unmarked disk registers both read-only. -/
theorem readonly_request_never_writable_witness :
    (1 : Int) ≠ 0 ∧
    (guestfs___add_libvirt_dom accept_all g_one
      (shutoff_domain [disk_a_readonly, disk_b]) ⟨some 1, none, none, none⟩).1.drives =
      g_one.drives ++
        [⟨"/a.img", { readonly := some 1, format := some "raw", iface := none }⟩,
         ⟨"/b.img", { readonly := some 1, format := none, iface := none }⟩] ∧
    ∃ appended,
      (guestfs___add_libvirt_dom accept_all g_one
        (shutoff_domain [disk_a_readonly, disk_b]) ⟨some 1, none, none, none⟩).1.drives =
        g_one.drives ++ appended ∧
      ∀ d ∈ appended, ∃ v, d.optargs.readonly = some v ∧ v ≠ 0 ∧ ((1 : Int) = 1 → v = 1) :=
  ⟨by decide, by decide,
    (readonly_request_never_writable accept_all g_one "/a.img" none 1
      .readonlydisk_write no_optargs (shutoff_domain [disk_a_readonly, disk_b])
      none none none 1 (by decide)).2⟩

/-! ## The returned count -/

/-- C4, as stated, fails: for a shut-off domain with a single disk carrying the
readonly marker, a read-write request and mode "ignore", the call succeeds and
registers nothing, but returns 1 (the skipped disk is counted), not 0. -/
theorem skipped_disk_is_counted :
    guestfs___add_libvirt_dom accept_all g_empty (shutoff_domain [disk_a_readonly])
        ⟨none, none, none, some "ignore"⟩ =
      ({ drives := [], attach_method := "appliance",
         trace := [Event.virDomainGetInfo, Event.checkpoint_drives,
           Event.virDomainGetXMLDesc, Event.xmlXPathEvalExpression "//devices/disk"] },
       some 1) ∧
    (guestfs___add_libvirt_dom accept_all g_empty (shutoff_domain [disk_a_readonly])
        ⟨none, none, none, some "ignore"⟩).2 ≠
      some (((guestfs___add_libvirt_dom accept_all g_empty (shutoff_domain [disk_a_readonly])
        ⟨none, none, none, some "ignore"⟩).1.drives.length - g_empty.drives.length
          : Nat) : Int) := by
  constructor <;> decide

/-- C4, amended. For every domain description and request for which
`guestfs___add_libvirt_dom` succeeds on the disk-registration path, the
returned count is the number of eligible disks of the description, that is the
number of entries appended to the registration list by this call plus the
number of eligible disks skipped by the policy. -/
theorem add_libvirt_dom_count (B : Backend) (g : guestfs_h)
    (info : Option virDomainState) (nodes : List DiskNode)
    (channels : ChannelQuery) (optargs : guestfs___add_libvirt_dom_argv)
    (mode : readonlydisk)
    (hpath : disk_registration_path ⟨info, .doc ⟨some nodes, channels⟩⟩ optargs = true)
    (hmode : parse_readonlydisk optargs.readonlydisk = some mode)
    (hok : (guestfs___add_libvirt_dom B g ⟨info, .doc ⟨some nodes, channels⟩⟩ optargs).2
      ≠ some (-1)) :
    ∃ appended,
      (guestfs___add_libvirt_dom B g ⟨info, .doc ⟨some nodes, channels⟩⟩ optargs).1.drives
        = g.drives ++ appended ∧
      (guestfs___add_libvirt_dom B g ⟨info, .doc ⟨some nodes, channels⟩⟩ optargs).2
        = some ((eligible_disks nodes).length : Int) ∧
      (guestfs___add_libvirt_dom B g ⟨info, .doc ⟨some nodes, channels⟩⟩ optargs).2
        = some ((appended.length +
            ((eligible_disks nodes).filter (skipped_by_policy mode)).length : Nat) : Int) := by
  rw [add_libvirt_dom_on_path B g _ optargs mode hpath hmode] at hok ⊢
  have hok1 : (add_the_disks B
      (if optargs.readonly.getD 0 = 0 then log g Event.virDomainGetInfo else g)
      ⟨info, .doc ⟨some nodes, channels⟩⟩ (optargs.readonly.getD 0) mode optargs.iface).2
      ≠ -1 := fun h => hok (congrArg some h)
  obtain ⟨app, h1, h2, h3⟩ := add_the_disks_count B _ info nodes channels _ mode _ hok1
  refine ⟨app, ?_, congrArg some h2, ?_⟩
  · show (add_the_disks B _ _ _ mode _).1.drives = _
    rw [h1]
    split <;> rfl
  · show some (add_the_disks B _ _ _ mode _).2 = _
    rw [h2, h3]

/-- Witness for C4 amended: a marked disk, an unmarked disk and a network disk,
read-write request, mode "ignore": the count is 2, one entry is appended and
one disk is skipped. -/
theorem add_libvirt_dom_count_witness :
    (guestfs___add_libvirt_dom accept_all g_one
      ⟨some .VIR_DOMAIN_SHUTOFF,
        .doc ⟨some [disk_a_readonly, disk_network, disk_b], .no_object⟩⟩
      ⟨none, none, none, some "ignore"⟩).2 = some 2 ∧
    ∃ appended,
      (guestfs___add_libvirt_dom accept_all g_one
        ⟨some .VIR_DOMAIN_SHUTOFF,
          .doc ⟨some [disk_a_readonly, disk_network, disk_b], .no_object⟩⟩
        ⟨none, none, none, some "ignore"⟩).1.drives = g_one.drives ++ appended ∧
      (guestfs___add_libvirt_dom accept_all g_one
        ⟨some .VIR_DOMAIN_SHUTOFF,
          .doc ⟨some [disk_a_readonly, disk_network, disk_b], .no_object⟩⟩
        ⟨none, none, none, some "ignore"⟩).2
        = some ((eligible_disks [disk_a_readonly, disk_network, disk_b]).length : Int) ∧
      (guestfs___add_libvirt_dom accept_all g_one
        ⟨some .VIR_DOMAIN_SHUTOFF,
          .doc ⟨some [disk_a_readonly, disk_network, disk_b], .no_object⟩⟩
        ⟨none, none, none, some "ignore"⟩).2
        = some ((appended.length +
            ((eligible_disks [disk_a_readonly, disk_network, disk_b]).filter
              (skipped_by_policy .readonlydisk_ignore)).length : Nat) : Int) :=
  ⟨by decide,
    add_libvirt_dom_count accept_all g_one (some .VIR_DOMAIN_SHUTOFF)
      [disk_a_readonly, disk_network, disk_b] .no_object ⟨none, none, none, some "ignore"⟩
      .readonlydisk_ignore (by decide) (by decide) (by decide)⟩

/-! ## Domains without a recognized disk -/

/-- C5. No-disks error: when no disk node of the description is eligible (no
type attribute, a type other than "file" and "block", no source attribute of
the kind, or no disk node at all), `for_each_disk` returns -1 after reporting
"libvirt domain has no disks", with the data and the handle as they were but
for the trace, whatever the visitor (so the visitor is never invoked); and
`guestfs___add_libvirt_dom` leaves the registration list unchanged, and on the
disk-registration path returns -1 without a call of the registration
primitive. -/
theorem no_recognized_disk {δ : Type} (f : Option (Visitor δ)) (data : δ)
    (B : Backend) (g : guestfs_h) (info : Option virDomainState)
    (nodes : List DiskNode) (channels : ChannelQuery)
    (optargs : guestfs___add_libvirt_dom_argv)
    (h : ∀ node ∈ nodes, eligible node = false) :
    for_each_disk g ⟨info, .doc ⟨some nodes, channels⟩⟩ f data =
      ((error (log (log g Event.virDomainGetXMLDesc)
          (Event.xmlXPathEvalExpression "//devices/disk")) ErrorMsg.no_disks, data), -1) ∧
    (guestfs___add_libvirt_dom B g ⟨info, .doc ⟨some nodes, channels⟩⟩ optargs).1.drives
      = g.drives ∧
    (disk_registration_path ⟨info, .doc ⟨some nodes, channels⟩⟩ optargs = true →
      (guestfs___add_libvirt_dom B g ⟨info, .doc ⟨some nodes, channels⟩⟩ optargs).2
        = some (-1) ∧
      (guestfs___add_libvirt_dom B g ⟨info, .doc ⟨some nodes, channels⟩⟩ optargs).1.trace =
        (if optargs.readonly.getD 0 = 0 then g.trace ++ [Event.virDomainGetInfo]
          else g.trace) ++
        [Event.checkpoint_drives, Event.virDomainGetXMLDesc,
         Event.xmlXPathEvalExpression "//devices/disk", Event.error ErrorMsg.no_disks,
         Event.rollback_drives g.drives.length]) := by
  have hfe : ∀ {γ : Type} (f : Option (Visitor γ)) (data : γ) (g : guestfs_h),
      for_each_disk g ⟨info, .doc ⟨some nodes, channels⟩⟩ f data =
        ((error (log (log g Event.virDomainGetXMLDesc)
          (Event.xmlXPathEvalExpression "//devices/disk")) ErrorMsg.no_disks, data), -1) := by
    intro γ f data g
    simp [for_each_disk, for_each_disk_loop_none nodes h]
  have hadd : ∀ (g : guestfs_h) (ro : Int) (mode : readonlydisk) (iface : Option String),
      add_the_disks B g ⟨info, .doc ⟨some nodes, channels⟩⟩ ro mode iface =
        (guestfs___rollback_drives (error (log (log (guestfs___checkpoint_drives g).1
          Event.virDomainGetXMLDesc) (Event.xmlXPathEvalExpression "//devices/disk"))
          ErrorMsg.no_disks) g.drives.length, -1) := by
    intro g ro mode iface
    simp [add_the_disks, hfe, guestfs___checkpoint_drives]
  refine ⟨hfe f data g, ?_, ?_⟩
  · simp only [guestfs___add_libvirt_dom]
    cases parse_readonlydisk optargs.readonlydisk with
    | none => rfl
    | some mode =>
      simp only [hadd]
      split
      · rfl
      · split
        · cases info with
          | none => rfl
          | some state =>
            simp only []
            split
            · split
              · rw [connect_live_drives]; rfl
              · rfl
            · simp [returned, guestfs___rollback_drives, guestfs___checkpoint_drives, error, log]
        · simp [returned, guestfs___rollback_drives, guestfs___checkpoint_drives, error, log]
  · intro hpath
    cases hmode : parse_readonlydisk optargs.readonlydisk with
    | none => simp [disk_registration_path, hmode] at hpath
    | some mode =>
      rw [add_libvirt_dom_on_path B g _ optargs mode hpath hmode, hadd]
      refine ⟨rfl, ?_⟩
      by_cases hro : optargs.readonly.getD 0 = 0
      · simp [hro, returned, guestfs___rollback_drives, guestfs___checkpoint_drives, error, log]
      · simp [hro, returned, guestfs___rollback_drives, guestfs___checkpoint_drives, error, log]

/-- Witness for C5: a domain whose only disk is a network disk. -/
theorem no_recognized_disk_witness :
    (∀ node ∈ [disk_network], eligible node = false) ∧
    for_each_disk g_one (shutoff_domain [disk_network]) (some visit_ok) () =
      ((error (log (log g_one Event.virDomainGetXMLDesc)
          (Event.xmlXPathEvalExpression "//devices/disk")) ErrorMsg.no_disks, ()), -1) ∧
    (guestfs___add_libvirt_dom accept_all g_one (shutoff_domain [disk_network])
      no_args).2 = some (-1) :=
  ⟨by decide,
    (no_recognized_disk (some visit_ok) () accept_all g_one (some .VIR_DOMAIN_SHUTOFF)
      [disk_network] (.nodeset []) no_args (by decide)).1,
    by decide⟩

/-! ## Running domains -/

/-- C6. Refusal to write to a running domain: for every domain whose state is
not shut-off, every description and every `readonlydisk` argument, a request
with `readonly` and `live` both unset or 0 makes `guestfs___add_libvirt_dom`
return -1 with the registration list and the attach method unchanged; the
only calls are `virDomainGetInfo` and `error` (the live-domain error whenever
the `readonlydisk` argument is one of the four modes or absent): the
description is not retrieved, no disk is enumerated and the registration
primitive is not called. -/
theorem running_domain_refused (B : Backend) (g : guestfs_h) (dom : virDomain)
    (optargs : guestfs___add_libvirt_dom_argv) (state : virDomainState)
    (hinfo : dom.info = some state) (hstate : state ≠ .VIR_DOMAIN_SHUTOFF)
    (hro : optargs.readonly.getD 0 = 0) (hlive : optargs.live.getD 0 = 0) :
    (guestfs___add_libvirt_dom B g dom optargs).2 = some (-1) ∧
    (guestfs___add_libvirt_dom B g dom optargs).1.drives = g.drives ∧
    (guestfs___add_libvirt_dom B g dom optargs).1.attach_method = g.attach_method ∧
    (guestfs___add_libvirt_dom B g dom optargs).1.trace =
      g.trace ++
        (if (parse_readonlydisk optargs.readonlydisk).isSome then
          [Event.virDomainGetInfo, Event.error ErrorMsg.domain_is_live]
         else [Event.error ErrorMsg.unknown_readonlydisk]) := by
  simp only [guestfs___add_libvirt_dom]
  cases parse_readonlydisk optargs.readonlydisk with
  | none => exact ⟨rfl, rfl, rfl, rfl⟩
  | some mode => simp [hro, hlive, hinfo, hstate, error, log]

/-- Witness for C6: a running domain with a disk and a guestfsd channel, and a
request with no flag set. -/
theorem running_domain_refused_witness :
    (guestfs___add_libvirt_dom accept_all g_one
      (running_domain [channel_at "/tmp/guestfsd.sock"]) no_args).2 = some (-1) ∧
    (guestfs___add_libvirt_dom accept_all g_one
      (running_domain [channel_at "/tmp/guestfsd.sock"]) no_args).1.drives = g_one.drives ∧
    (guestfs___add_libvirt_dom accept_all g_one
      (running_domain [channel_at "/tmp/guestfsd.sock"]) no_args).1.attach_method
      = g_one.attach_method ∧
    (guestfs___add_libvirt_dom accept_all g_one
      (running_domain [channel_at "/tmp/guestfsd.sock"]) no_args).1.trace =
      g_one.trace ++
        (if (parse_readonlydisk no_args.readonlydisk).isSome then
          [Event.virDomainGetInfo, Event.error ErrorMsg.domain_is_live]
         else [Event.error ErrorMsg.unknown_readonlydisk]) :=
  running_domain_refused accept_all g_one
    (running_domain [channel_at "/tmp/guestfsd.sock"]) no_args .VIR_DOMAIN_RUNNING
    rfl (by decide) (by decide) (by decide)

/-- Live attach leaves the registration alone: for a domain that is not shut
off and a request with `live` set and `readonly` unset or 0, whatever the
`readonlydisk` argument and whatever the retrieval of the description yields,
`guestfs___add_libvirt_dom` leaves the registration list unchanged, and it
neither evaluates the disk query nor calls the registration primitive. -/
theorem live_path_no_registration (B : Backend) (g : guestfs_h) (dom : virDomain)
    (optargs : guestfs___add_libvirt_dom_argv) (state : virDomainState)
    (hinfo : dom.info = some state) (hstate : state ≠ .VIR_DOMAIN_SHUTOFF)
    (hlive : optargs.live.getD 0 ≠ 0) (hro : optargs.readonly.getD 0 = 0) :
    (guestfs___add_libvirt_dom B g dom optargs).1.drives = g.drives ∧
    ∃ events,
      (guestfs___add_libvirt_dom B g dom optargs).1.trace = g.trace ++ events ∧
      ∀ e ∈ events, e ≠ Event.xmlXPathEvalExpression "//devices/disk" ∧
        ∀ filename oa, e ≠ Event.add_drive_opts filename oa := by
  cases hmode : parse_readonlydisk optargs.readonlydisk with
  | none =>
    simp only [guestfs___add_libvirt_dom, hmode]
    exact ⟨rfl, [Event.error ErrorMsg.unknown_readonlydisk], rfl, by simp⟩
  | some mode =>
    have hrun : guestfs___add_libvirt_dom B g dom optargs =
        connect_live B (log g Event.virDomainGetInfo) dom := by
      simp [guestfs___add_libvirt_dom, hmode, hro, hlive, hinfo, hstate]
    rw [hrun]
    refine ⟨by rw [connect_live_drives]; rfl, ?_⟩
    have hx : Event.xmlXPathEvalExpression channel_xpath ≠
        Event.xmlXPathEvalExpression "//devices/disk" := by decide
    rcases dom with ⟨info, xml⟩
    cases xml with
    | no_xml =>
      exact ⟨[Event.virDomainGetInfo, Event.virDomainGetXMLDesc,
        Event.error ErrorMsg.reading_xml], by simp [connect_live, error, log], by simp⟩
    | no_doc =>
      exact ⟨[Event.virDomainGetInfo, Event.virDomainGetXMLDesc,
        Event.error ErrorMsg.parse_xml], by simp [connect_live, error, log], by simp⟩
    | no_context =>
      exact ⟨[Event.virDomainGetInfo, Event.virDomainGetXMLDesc,
        Event.error ErrorMsg.xpath_context], by simp [connect_live, error, log], by simp⟩
    | doc d =>
      rcases d with ⟨disks, channels⟩
      cases channels with
      | no_object =>
        exact ⟨[Event.virDomainGetInfo, Event.virDomainGetXMLDesc,
          Event.xmlXPathEvalExpression channel_xpath, Event.error ErrorMsg.xpath_eval],
          by simp [connect_live, error, log], by simp [hx]⟩
      | no_nodeset =>
        exact ⟨[Event.virDomainGetInfo, Event.virDomainGetXMLDesc,
          Event.xmlXPathEvalExpression channel_xpath],
          by simp [connect_live, log], by simp [hx]⟩
      | nodeset chans =>
        simp only [connect_live]
        cases connect_live_loop (List.filter guestfsd_channel chans) with
        | none =>
          exact ⟨[Event.virDomainGetInfo, Event.virDomainGetXMLDesc,
            Event.xmlXPathEvalExpression channel_xpath, Event.error ErrorMsg.no_channel],
            by simp [error, log], by simp [hx]⟩
        | some path =>
          refine ⟨[Event.virDomainGetInfo, Event.virDomainGetXMLDesc,
            Event.xmlXPathEvalExpression channel_xpath,
            Event.set_attach_method ("unix:" ++ path)], ?_, by simp [hx]⟩
          simp only [guestfs_set_attach_method]
          split <;> simp [log]

/-- Live attach when the channel query yields a node set: for a domain that is
not shut off, a request with `live` set and `readonly` unset or 0 and a known
`readonlydisk` argument, if some channel qualifies, the only call after the
queries is `guestfs_set_attach_method` with "unix:" followed by the socket
path of the first qualifying channel in document order, and the result of the
call is the result of that function (so the attach method is that string
whenever it is accepted); if no channel of the node set qualifies, the call
reports the no-channel error, returns -1 and leaves the attach method as it
was. -/
theorem live_attach_on_node_set (B : Backend) (g : guestfs_h) (dom : virDomain)
    (optargs : guestfs___add_libvirt_dom_argv) (state : virDomainState)
    (mode : readonlydisk) (disks : Option (List DiskNode)) (channels : List ChannelNode)
    (hinfo : dom.info = some state) (hstate : state ≠ .VIR_DOMAIN_SHUTOFF)
    (hlive : optargs.live.getD 0 ≠ 0) (hro : optargs.readonly.getD 0 = 0)
    (hmode : parse_readonlydisk optargs.readonlydisk = some mode)
    (hxml : dom.xml = .doc ⟨disks, .nodeset channels⟩) :
    match channels.filter guestfsd_channel with
    | [] =>
      (guestfs___add_libvirt_dom B g dom optargs).2 = some (-1) ∧
      (guestfs___add_libvirt_dom B g dom optargs).1.attach_method = g.attach_method ∧
      (guestfs___add_libvirt_dom B g dom optargs).1.trace =
        g.trace ++ [Event.virDomainGetInfo, Event.virDomainGetXMLDesc,
          Event.xmlXPathEvalExpression channel_xpath, Event.error ErrorMsg.no_channel]
    | c :: _ =>
      ∃ path, c.source_path.head? = some path ∧
        guestfs___add_libvirt_dom B g dom optargs =
          returned (guestfs_set_attach_method B
            (log (log (log g Event.virDomainGetInfo) Event.virDomainGetXMLDesc)
              (Event.xmlXPathEvalExpression channel_xpath)) ("unix:" ++ path)) ∧
        (guestfs___add_libvirt_dom B g dom optargs).1.trace =
          g.trace ++ [Event.virDomainGetInfo, Event.virDomainGetXMLDesc,
            Event.xmlXPathEvalExpression channel_xpath,
            Event.set_attach_method ("unix:" ++ path)] ∧
        ((guestfs___add_libvirt_dom B g dom optargs).2 = some 0 →
          (guestfs___add_libvirt_dom B g dom optargs).1.attach_method = "unix:" ++ path) := by
  have hrun : guestfs___add_libvirt_dom B g dom optargs =
      connect_live B (log g Event.virDomainGetInfo) dom := by
    simp [guestfs___add_libvirt_dom, hmode, hro, hlive, hinfo, hstate]
  rw [hrun]
  have hconn : connect_live B (log g Event.virDomainGetInfo) dom =
      match connect_live_loop (channels.filter guestfsd_channel) with
      | none =>
        (error (log (log (log g Event.virDomainGetInfo) Event.virDomainGetXMLDesc)
          (Event.xmlXPathEvalExpression channel_xpath)) ErrorMsg.no_channel, some (-1))
      | some path =>
        returned (guestfs_set_attach_method B
          (log (log (log g Event.virDomainGetInfo) Event.virDomainGetXMLDesc)
            (Event.xmlXPathEvalExpression channel_xpath)) ("unix:" ++ path)) := by
    simp only [connect_live, hxml, returned]
  rw [hconn, connect_live_loop_filter]
  cases hc : channels.filter guestfsd_channel with
  | nil => simp [error, log]
  | cons c rest =>
    have hmem : c ∈ channels.filter guestfsd_channel := by
      rw [hc]
      exact List.mem_cons_self _ _
    have hq : guestfsd_channel c = true := (List.mem_filter.mp hmem).2
    cases hp : c.source_path with
    | nil => simp [guestfsd_channel, hp] at hq
    | cons path ps =>
      simp only [hp, List.head?_cons]
      refine ⟨path, rfl, rfl, ?_, ?_⟩
      · simp only [returned, guestfs_set_attach_method]
        split <;> simp [log]
      · simp only [returned, guestfs_set_attach_method]
        split
        · intro _; rfl
        · intro h0
          exact absurd (Option.some.inj h0) (show ¬((-1 : Int) = 0) by decide)

/-- Live attach with two qualifying channels after one that does not qualify:
the first qualifying one gives the attach method, and nothing is registered. -/
theorem live_attach_first_channel :
    guestfs___add_libvirt_dom accept_all g_one
        (running_domain [{ channel_at "/other.sock" with target_name := ["com.redhat.spice.0"] },
          channel_at "/first.sock", channel_at "/second.sock"])
        ⟨none, none, some 1, none⟩ =
      ({ drives := g_one.drives, attach_method := "unix:/first.sock",
         trace := [Event.virDomainGetInfo, Event.virDomainGetXMLDesc,
           Event.xmlXPathEvalExpression channel_xpath,
           Event.set_attach_method "unix:/first.sock"] }, some 0) ∧
    (guestfs___add_libvirt_dom accept_all g_one
        (running_domain [{ channel_at "/other.sock" with target_name := ["com.redhat.spice.0"] },
          channel_at "/first.sock", channel_at "/second.sock"])
        ⟨none, none, some 1, none⟩).1.drives = g_one.drives :=
  ⟨rfl,
    (live_path_no_registration accept_all g_one
      (running_domain [{ channel_at "/other.sock" with target_name := ["com.redhat.spice.0"] },
        channel_at "/first.sock", channel_at "/second.sock"])
      ⟨none, none, some 1, none⟩ .VIR_DOMAIN_RUNNING
      rfl (by decide) (by decide) (by decide)).1⟩

/-- C7, at the failing input. The claim says that a live request on a running
domain with no qualifying channel fails with the no-channel error.  For a
running domain whose description has no `devices` element the channel query
yields an object without a node set, and `connect_live` reads `nodes->nodeNr`
through the NULL pointer (lines 351-352): the call does not return, -1 is not
returned and the no-channel error is not reported.  Nothing is registered and
the attach method is not set. -/
theorem live_attach_without_devices :
    guestfs___add_libvirt_dom accept_all g_one running_domain_without_devices
        ⟨none, none, some 1, none⟩ =
      ({ drives := g_one.drives, attach_method := g_one.attach_method,
         trace := [Event.virDomainGetInfo, Event.virDomainGetXMLDesc,
           Event.xmlXPathEvalExpression channel_xpath] }, none) ∧
    (guestfs___add_libvirt_dom accept_all g_one running_domain_without_devices
        ⟨none, none, some 1, none⟩).2 ≠ some (-1) ∧
    Event.error ErrorMsg.no_channel ∉
      (guestfs___add_libvirt_dom accept_all g_one running_domain_without_devices
        ⟨none, none, some 1, none⟩).1.trace := by
  refine ⟨rfl, ?_, ?_⟩ <;> decide

/-! ## The enumeration -/

/-- C8. Enumeration order, filtering and fail-fast: for every list of disk
nodes and every visitor, the invocations `for_each_disk` makes are those of the
fail-fast pass over the descriptors of the eligible nodes in document order.
They are a leading part of that list.  If an invocation returns -1 it is the
last one, all the earlier ones did not return -1, and the result is -1.  If no
invocation returns -1 every eligible node is visited, and when at least one was
visited the result is the number of invocations. -/
theorem for_each_disk_visits_in_order {δ : Type} (f : Visitor δ) (data : δ)
    (g : guestfs_h) (info : Option virDomainState) (nodes : List DiskNode)
    (channels : ChannelQuery) :
    (for_each_disk g ⟨info, .doc ⟨some nodes, channels⟩⟩
        (some (recording f)) (data, [])).1.2.2 =
      (visit_in_order f (eligible_disks nodes) (at_loop_start g) data).invoked ∧
    (∃ rest, eligible_disks nodes =
      (for_each_disk g ⟨info, .doc ⟨some nodes, channels⟩⟩
        (some (recording f)) (data, [])).1.2.2 ++ rest) ∧
    ((visit_in_order f (eligible_disks nodes) (at_loop_start g) data).count = none →
      (for_each_disk g ⟨info, .doc ⟨some nodes, channels⟩⟩
        (some (recording f)) (data, [])).2 = -1 ∧
      ∃ init i rest, eligible_disks nodes = init ++ i :: rest ∧
        (for_each_disk g ⟨info, .doc ⟨some nodes, channels⟩⟩
          (some (recording f)) (data, [])).1.2.2 = init ++ [i] ∧
        (visit_in_order f init (at_loop_start g) data).count = some init.length ∧
        (f (visit_in_order f init (at_loop_start g) data).g i.filename i.format i.readonly
          (visit_in_order f init (at_loop_start g) data).data).2 = -1) ∧
    (∀ k, (visit_in_order f (eligible_disks nodes) (at_loop_start g) data).count = some k →
      (for_each_disk g ⟨info, .doc ⟨some nodes, channels⟩⟩
        (some (recording f)) (data, [])).1.2.2 = eligible_disks nodes ∧
      k = (eligible_disks nodes).length ∧
      (k ≠ 0 →
        (for_each_disk g ⟨info, .doc ⟨some nodes, channels⟩⟩
          (some (recording f)) (data, [])).2 = ((eligible_disks nodes).length : Int))) := by
  obtain ⟨h1, h2⟩ := for_each_disk_recording f data g info nodes channels
  have hrec : (for_each_disk g ⟨info, .doc ⟨some nodes, channels⟩⟩
        (some (recording f)) (data, [])).1.2.2 =
      (visit_in_order f (eligible_disks nodes) (at_loop_start g) data).invoked := by
    rw [h1]
  obtain ⟨h3, h4⟩ := visit_in_order_invoked f (eligible_disks nodes) (at_loop_start g) data
  refine ⟨hrec, ?_, ?_, ?_⟩
  · rw [hrec]; exact h3
  · intro hc
    obtain ⟨init, i, rest, e1, e2, e3, e4⟩ :=
      visit_in_order_fail f (eligible_disks nodes) (at_loop_start g) data hc
    refine ⟨?_, init, i, rest, e1, by rw [hrec]; exact e2, e3, e4⟩
    rw [h2, hc]
  · intro k hc
    obtain ⟨e1, e2⟩ := h4 k hc
    refine ⟨by rw [hrec]; exact e1, e2, fun hk => ?_⟩
    rw [h2, hc]
    simp only [hk, if_false]
    rw [e2]

/-- Witness for C8: the visitor fails on the second eligible disk; the network
disk is passed over, the two disks before and at the failure are visited in
document order, and the disk after the failure is not. -/
theorem for_each_disk_visits_in_order_witness :
    for_each_disk g_empty
        (shutoff_domain [disk_a, disk_network, disk_b, disk_a_readonly])
        (some (recording visit_fail_b)) ((), []) =
      ((at_loop_start g_empty, ((), [⟨"/a.img", none, 0⟩, ⟨"/b.img", none, 0⟩])), -1) ∧
    (for_each_disk g_empty
        (shutoff_domain [disk_a, disk_network, disk_b, disk_a_readonly])
        (some (recording visit_fail_b)) ((), [])).1.2.2 =
      (visit_in_order visit_fail_b
        (eligible_disks [disk_a, disk_network, disk_b, disk_a_readonly])
        (at_loop_start g_empty) ()).invoked :=
  ⟨by decide,
    (for_each_disk_visits_in_order visit_fail_b () g_empty (some .VIR_DOMAIN_SHUTOFF)
      [disk_a, disk_network, disk_b, disk_a_readonly] (.nodeset [])).1⟩

/-- C9, as stated, fails: a disk node of type "file" whose source/@file
attribute is the empty string is visited, and the visitor receives the empty
path. -/
theorem empty_source_attribute_is_visited :
    for_each_disk g_empty (shutoff_domain [disk_empty_path])
        (some (recording visit_ok)) ((), []) =
      ((at_loop_start g_empty, ((), [⟨"", none, 0⟩])), 1) ∧
    ¬ (∀ i ∈ (for_each_disk g_empty (shutoff_domain [disk_empty_path])
        (some (recording visit_ok)) ((), [])).1.2.2, i.filename ≠ "") := by
  constructor <;> decide

/-- C9, amended. Every descriptor `for_each_disk` passes to the visitor comes
from a node whose type attribute is exactly "file" or "block", and its path is
the value of the source/@file, respectively source/@dev, attribute of that
node, which is present (the value itself may be the empty string). -/
theorem for_each_disk_descriptor_source {δ : Type} (f : Visitor δ) (data : δ)
    (g : guestfs_h) (info : Option virDomainState) (nodes : List DiskNode)
    (channels : ChannelQuery) (i : Invocation)
    (hi : i ∈ (for_each_disk g ⟨info, .doc ⟨some nodes, channels⟩⟩
        (some (recording f)) (data, [])).1.2.2) :
    ∃ node ∈ nodes,
      (node.xptype.head? = some "file" ∧ node.xpfilename_file.head? = some i.filename) ∨
      (node.xptype.head? = some "block" ∧ node.xpfilename_dev.head? = some i.filename) := by
  obtain ⟨h1, _⟩ := for_each_disk_recording f data g info nodes channels
  rw [h1] at hi
  obtain ⟨⟨rest, h3⟩, _⟩ :=
    visit_in_order_invoked f (eligible_disks nodes) (at_loop_start g) data
  apply mem_eligible_disks nodes i
  rw [h3]
  exact List.mem_append_left _ hi

/-- Witness for C9 amended: the second visited descriptor of a description
with a file disk, a network disk and a block device. -/
theorem for_each_disk_descriptor_source_witness :
    (⟨"/dev/sdb", none, 0⟩ : Invocation) ∈
      (for_each_disk g_empty
        ⟨some .VIR_DOMAIN_SHUTOFF, .doc ⟨some [disk_a, disk_network,
          { xptype := ["block"], xpfilename_file := [], xpfilename_dev := ["/dev/sdb"],
            xpformat := [], xpreadonly := 0 }], .no_object⟩⟩
        (some (recording visit_ok)) ((), [])).1.2.2 ∧
    ∃ node ∈ [disk_a, disk_network,
        { xptype := ["block"], xpfilename_file := [], xpfilename_dev := ["/dev/sdb"],
          xpformat := [], xpreadonly := 0 }],
      (node.xptype.head? = some "file" ∧ node.xpfilename_file.head? = some "/dev/sdb") ∨
      (node.xptype.head? = some "block" ∧ node.xpfilename_dev.head? = some "/dev/sdb") :=
  ⟨by decide,
    for_each_disk_descriptor_source visit_ok () g_empty (some .VIR_DOMAIN_SHUTOFF)
      [disk_a, disk_network,
        { xptype := ["block"], xpfilename_file := [], xpfilename_dev := ["/dev/sdb"],
          xpformat := [], xpreadonly := 0 }] .no_object ⟨"/dev/sdb", none, 0⟩ (by decide)⟩

end LibvirtDomain
